import Mathlib

/-!
Verification of the Park suspension/wake primitive and the FileIo bridge.

The definitions below are a shallow embedding of `src/park.rs` and
`src/io/sys/unix/fs/mod.rs`.  The atomic compare-and-swap loops are embedded
by their sequential effect on the state word (a single agent running the loop
to completion with no interference); the truly concurrent wake protocol is
additionally embedded as an interleaving transition system in namespace
`Wake`.  External collaborators (scheduler, timer service, cancellation
token, resumption side channel) are abstracted as environment parameters
that the theorems quantify over.
-/

namespace May

/-- `ParkError` from park.rs lines 15-19. -/
inductive ParkError
  | canceled
  | timeout
deriving DecidableEq, Repr

/-- The `std::io::ErrorKind` values relevant to the resumption side channel
(`get_co_para`): `TimedOut`, `Other`, and a representative of every other
kind (`wouldBlock`). -/
inductive EKind
  | timedOut
  | other
  | wouldBlock
deriving DecidableEq, Repr

/-- The fields of `struct Park` (park.rs lines 22-38).

* `state`   : the `AtomicUsize` bit-field word (bit 0 = ready, bit 1 = fence).
* `waitCo`  : whether the `wait_co` slot currently holds a continuation.
* `checkCancel`, `isCanceled`, `timeout` (ms), `timeoutHandle` (raw pointer,
  `0` = null), `waitKernel` : direct counterparts of the source fields.
* `fenceAdds` : ghost counter, incremented each time the source performs
  `state.fetch_add(0x02)`, used to count fence advances.
* `armed` : ghost counter of `get_scheduler().add_timer` calls.
* `delTimers` : ghost log of handles passed to `del_timer`. -/
structure ParkSt where
  state : Nat
  waitCo : Bool
  checkCancel : Bool
  isCanceled : Bool
  timeout : Nat
  timeoutHandle : Nat
  waitKernel : Bool
  fenceAdds : Nat
  armed : Nat
  delTimers : List Nat
deriving DecidableEq, Repr

/-- `Park::new` (park.rs lines 42-52). -/
def Park.new : ParkSt :=
  { state := 0, waitCo := false, checkCancel := true, isCanceled := false
    timeout := 0, timeoutHandle := 0, waitKernel := false
    fenceAdds := 0, armed := 0, delTimers := [] }

/-- `Park::ignore_cancel` (park.rs lines 55-57): stores `!ignore` into
`check_cancel`. -/
def ignore_cancel (p : ParkSt) (ignore : Bool) : ParkSt :=
  { p with checkCancel := !ignore }

/-- `usize` modulus for the `as usize` cast in `set_timeout`. -/
def usizeMod : Nat := 2 ^ 64

/-- `Park::set_timeout` (park.rs lines 61-71).  A `Duration` is embedded as
its total nanosecond count; `as_millis` is division by `1000000`.  Returns
the previously configured timeout (as `Option` milliseconds, `0` mapping to
`none`) together with the updated state. -/
def set_timeout (p : ParkSt) (dur : Option Nat) : Option Nat × ParkSt :=
  let timeout : Nat :=
    match dur with
    | none => 0
    | some d => d / 1000000 % usizeMod
  let old := p.timeout
  ((if old = 0 then none else some old), { p with timeout := timeout })

/-- `Park::set_timeout_handle` (park.rs lines 74-89).  A
`TimeoutHandle` is embedded as the raw pointer it owns (`0` = null), so
`into_ptr`/`from_ptr` are the identity on that number.  NOTE: this mirrors
the source faithfully, including the non-null branch returning
`TimeoutHandle::from_ptr(ptr)` built from the NEW pointer `ptr` (line 87),
not from `old_ptr`. -/
def set_timeout_handle (p : ParkSt) (handle : Option Nat) : Option Nat × ParkSt :=
  let ptr : Nat :=
    match handle with
    | none => 0
    | some h => h
  let old_ptr := p.timeoutHandle
  ((if old_ptr = 0 then none else some ptr), { p with timeoutHandle := ptr })

/-- Sequential effect of `Park::check_park` (park.rs lines 95-117): the
compare-and-swap loop run without interference.  Returns
`(need_park, new_state)`: when bit 0 is clear the coroutine must really
park; otherwise the loop consumes bit 0 (`state - 1`) and reports that no
blocking is needed. -/
def check_park (state : Nat) : Bool × Nat :=
  if state % 2 = 0 then (true, state) else (false, state - 1)

/-- Sequential effect of the `Park::unpark` compare-and-swap loop on the
state word (park.rs lines 121-144): a no-op when bit 0 is already set,
otherwise `state + 1`. -/
def unpark_word (state : Nat) : Nat :=
  if state % 2 = 1 then state else state + 1

/-- `state & 0x02 == 0x02`: the fence bit test used by `park_timeout` and
`Drop for Park`. -/
def fenceBitSet (state : Nat) : Bool := state.testBit 1

/-- `state.fetch_and(!0x02)` (park.rs line 187): clears bit 1. -/
def clearFence (state : Nat) : Nat := if state.testBit 1 then state - 2 else state

/-- `DropGuard::drop` (park.rs lines 223-228): `state.fetch_add(0x02)`,
with the ghost counter recording one fence advance. -/
def guardFire (p : ParkSt) : ParkSt :=
  { p with state := p.state + 2, fenceAdds := p.fenceAdds + 1 }

/-- Abstraction of the external world during one `park_timeout` round.

* `newHandle` : the raw pointer produced by `get_scheduler().add_timer`.
* `cancelAtSubscribe` : result of `cancel.is_canceled()` inside `subscribe`.
* `externalWake` : whether some producer (`unpark`), the timer service, or
  the cancellation machinery eventually resumes the parked coroutine.
* `cancelAtYield` : result of `cancel.is_canceled()` inside `yield_back`.
* `coPara` : the payload returned by `get_co_para()` after resumption.
* `isLink` : `TimeoutHandle::is_link` as a function of the handle. -/
structure RoundEnv where
  newHandle : Nat
  cancelAtSubscribe : Bool
  externalWake : Bool
  cancelAtYield : Bool
  coPara : Option EKind
  isLink : Nat → Bool

/-- `Park::remove_timeout_handle` (park.rs lines 148-156): takes the
installed handle via `set_timeout_handle(None)` and, when the returned
handle is still linked, passes it to `del_timer` (recorded in the ghost
log). -/
def remove_timeout_handle (p : ParkSt) (env : RoundEnv) : ParkSt :=
  match set_timeout_handle p none with
  | (some h, p1) => if env.isLink h then { p1 with delTimers := p1.delTimers ++ [h] } else p1
  | (none, p1) => p1

/-- `Park::subscribe` (park.rs lines 246-273).  Returns the state after the
call together with `(wokeSync, cancelDelivered)`: whether the re-check of
bit 0 performed a synchronous wake, and whether `cancel.cancel()` delivered
cancellation.  The scoped guard `_g = self.delay_drop()` fires (`guardFire`)
exactly when the call returns, on every exit path. -/
def subscribe (p : ParkSt) (env : RoundEnv) : ParkSt × Bool × Bool :=
  let (oldTimeout, p1) := set_timeout p none
  let (timeoutHandle, p2) :=
    match oldTimeout with
    | none => ((none : Option Nat), p1)
    | some _ => (some env.newHandle, { p1 with armed := p1.armed + 1 })
  let p3 := (set_timeout_handle p2 timeoutHandle).2
  let p4 := { p3 with waitKernel := true }
  let p5 := { p4 with waitCo := true }
  if p5.state % 2 = 1 then
    (guardFire { p5 with waitCo := false }, true, false)
  else if env.cancelAtSubscribe then
    (guardFire { p5 with waitCo := false }, false, true)
  else
    (guardFire p5, false, false)

/-- `Park::yield_back` (park.rs lines 276-287) up to the `check_cancel`
call: `state.fetch_add(0x02)` and the unconditional store of
`cancel.is_canceled()` into `is_canceled`.  Whether `cancel.check_cancel()`
then raises is decided by the caller (`park_timeout` model). -/
def yield_back (p : ParkSt) (cancelNow : Bool) : ParkSt :=
  { p with state := p.state + 2, fenceAdds := p.fenceAdds + 1, isCanceled := cancelNow }

/-- How one `park_timeout` call ends.

* `okImmediate` : the `return Ok(())` at line 177 (ready bit consumed, no
  suspension).
* `ok`, `errTimeout`, `errCanceled` : the returns at lines 214, 208, 203/209.
* `cancelPanic` : `cancel.check_cancel()` raised inside `yield_back`.
* `parked` : the coroutine suspended and nothing ever resumed it.
* `fenceWait` : the pre-suspension fence loop (lines 181-184) spins with no
  other agent to close the fence. -/
inductive POutcome
  | okImmediate
  | ok
  | errTimeout
  | errCanceled
  | cancelPanic
  | parked
  | fenceWait
  | defect
deriving DecidableEq, Repr

/-- The classification at the tail of `park_timeout` (park.rs lines
202-214): the recorded cancellation flag first, then the resumption
payload. -/
def classifyResumption (isCanceled : Bool) (para : Option EKind) : POutcome :=
  if isCanceled then .errCanceled
  else
    match para with
    | some .timedOut => .errTimeout
    | some .other => .errCanceled
    | some _ => .defect
    | none => .ok

/-- The suspension section of `park_timeout` (park.rs lines 190-214):
`yield_with(self)` (which makes the scheduler run `subscribe` and, upon
resumption, runs `yield_back` in the coroutine), followed by the trailing
`check_park`, `remove_timeout_handle` and outcome classification. -/
def park_suspend (p : ParkSt) (env : RoundEnv) : POutcome × ParkSt :=
  let (p1, wokeSync, cancelDelivered) := subscribe p env
  if !(wokeSync || cancelDelivered || env.externalWake) then (.parked, p1)
  else
    let p2 := yield_back p1 env.cancelAtYield
    if p2.checkCancel && env.cancelAtYield then (.cancelPanic, p2)
    else
      let p3 := { p2 with state := (check_park p2.state).2 }
      let p4 := remove_timeout_handle p3 env
      (classifyResumption p4.isCanceled env.coPara, p4)

/-- `Park::park_timeout` (park.rs lines 172-215).  `dur` is the optional
duration in nanoseconds. -/
def park_timeout (p0 : ParkSt) (dur : Option Nat) (env : RoundEnv) : POutcome × ParkSt :=
  let p := (set_timeout p0 dur).2
  match check_park p.state with
  | (false, st) => (.okImmediate, { p with state := st })
  | (true, _) =>
    let wk := p.waitKernel
    let p1 := { p with waitKernel := false }
    if wk then
      if fenceBitSet p1.state then (.fenceWait, p1)
      else park_suspend p1 env
    else
      park_suspend { p1 with state := clearFence p1.state } env

/-- The fence-wait loop of `Drop for Park` (park.rs lines 237-239),
run with fuel: `obs i` is the state word seen by the `i`-th load; the result
is the number of `yield_now` iterations before the fence bit reads clear,
or `none` when the fuel runs out first. -/
def dropWait (obs : Nat → Nat) : Nat → Option Nat
  | 0 => none
  | fuel + 1 =>
    if fenceBitSet (obs 0) then (dropWait (fun k => obs (k + 1)) fuel).map (· + 1)
    else some 0

/-- Result of running `Drop for Park`: how many times it yielded, whether it
reached the `set_timeout_handle(None)` uninstall, and the state left
behind. -/
structure DropRun where
  yields : Nat
  uninstalled : Bool
  post : ParkSt
deriving DecidableEq, Repr

/-- `Drop for Park` (park.rs lines 230-242): an early return when
`wait_kernel` is clear, otherwise the cooperative fence wait followed by
`set_timeout_handle(None)`. -/
def park_drop (p : ParkSt) (obs : Nat → Nat) (fuel : Nat) : Option DropRun :=
  if p.waitKernel = false then some ⟨0, false, p⟩
  else
    match dropWait obs fuel with
    | none => none
    | some k => some ⟨k, true, (set_timeout_handle p none).2⟩

/-- An environment in which no producer, timer or cancellation ever
interferes with the round. -/
def envIdle : RoundEnv :=
  { newHandle := 7, cancelAtSubscribe := false, externalWake := false
    cancelAtYield := false, coPara := none, isLink := fun _ => false }

/-- An environment in which a producer eventually resumes the round and
nothing is canceled. -/
def envWake : RoundEnv :=
  { newHandle := 7, cancelAtSubscribe := false, externalWake := true
    cancelAtYield := false, coPara := none, isLink := fun _ => false }

/-- An environment in which the cancellation token is canceled and a
wake is eventually delivered. -/
def envCanceled : RoundEnv :=
  { newHandle := 7, cancelAtSubscribe := false, externalWake := true
    cancelAtYield := true, coPara := none, isLink := fun _ => false }

/-- A Park on which `ignore_cancel(true)` has been called. -/
def pIgnore : ParkSt := ignore_cancel Park.new true

/-- A Park whose `timeout_handle` points at a (non-null) armed timer
handle `5`. -/
def pArmed : ParkSt := { Park.new with timeoutHandle := 5 }

end May

namespace Fs

/-- Abstraction of the OS and reactor calls made by `FileIo::new`
(fs/mod.rs lines 62-84).

* `eventfdRet` : the descriptor returned by `eventfd(0, flags)`.
* `lastOsError` : the errno captured by `io::Error::last_os_error()`.
* `addFileRet` : the result of `super::add_file(&ev_fd)` — either a
  registration token (`IoData`) or an error, both numbered.
* `dummyIoData` : the token produced by `IoData::new(&fd)` for the dummy
  instance. -/
structure FsEnv where
  eventfdRet : Int
  lastOsError : Nat
  addFileRet : Except Nat Nat
  dummyIoData : Nat
deriving Repr

/-- `struct FileIo` (fs/mod.rs lines 35-38): the `EventFd` descriptor and
the `IoData` registration token. -/
structure FileIo where
  fd : Int
  io : Nat
deriving DecidableEq, Repr

/-- `FileIo::new` (fs/mod.rs lines 62-84).  The second component of the
result records whether the `eventfd` kernel allocation was performed. -/
def FileIo.new (hasFile : Bool) (env : FsEnv) : Except Nat FileIo × Bool :=
  if hasFile then
    let fd := env.eventfdRet
    if fd < 0 then (.error env.lastOsError, true)
    else
      match env.addFileRet with
      | .error e => (.error e, true)
      | .ok io => (.ok { fd := fd, io := io }, true)
  else
    (.ok { fd := -1, io := env.dummyIoData }, false)

/-- `Drop for FileIo` (fs/mod.rs lines 40-48): whether `close(fd)` is
called during teardown. -/
def dropCloses (f : FileIo) : Bool := decide (0 ≤ f.fd)

end Fs

namespace Wake

/-- Program counter of the single consumer running `park_timeout` through
`subscribe` (park.rs lines 172-196 and 246-273).

* `start`     : about to run `check_park` (the atomic test-and-clear of bit 0).
* `atPublish` : bit 0 was clear; about to publish the continuation into the
  `wait_co` slot (`self.wait_co.swap(co)`, line 258).
* `atRecheck` : about to re-check bit 0 (line 261).
* `parked`    : `subscribe` returned with the continuation left registered.
* `doneOk`    : `check_park` consumed a pending wake; `park_timeout`
  returned `Ok(())` immediately (line 177).
* `doneSync`  : the re-check found bit 0 set and `wake_up(true)` ran the
  continuation synchronously (line 264). -/
inductive CLoc
  | start
  | atPublish
  | atRecheck
  | parked
  | doneOk
  | doneSync
deriving DecidableEq, Repr

/-- Program counter of one producer running `unpark` (park.rs lines
121-144).

* `pstart` : about to run the compare-and-swap on bit 0.
* `ptake`  : set bit 0; about to run `wake_up(false)` (take the slot and
  hand the continuation to the scheduler, lines 159-167).
* `pdone`  : `unpark` returned (either as a no-op or after the take). -/
inductive PLoc
  | pstart
  | ptake
  | pdone
deriving DecidableEq, Repr

/-- Shared state of the wake protocol plus all program counters.

* `bit`  : bit 0 of the `state` word (the ready flag).
* `slot` : whether the `wait_co` slot currently holds the continuation.
* `woken` : whether the continuation has been handed back for execution
  (either `run_coroutine` inline or `get_scheduler().schedule`). -/
structure Sys where
  bit : Bool
  slot : Bool
  woken : Bool
  c : CLoc
  ps : List PLoc
deriving DecidableEq, Repr

/-- One atomic step of the consumer.  `start`: `check_park` consumes a set
bit (returning `Ok` immediately) or finds it clear; `atPublish`:
`wait_co.swap(co)`; `atRecheck`: `state & 1 == 1` leads to `wake_up(true)`
(take the slot; if someone else already emptied it the wake is a no-op and
the coroutine stays parked, already woken by that taker), otherwise the
call returns with the coroutine parked. -/
def cstep (s : Sys) : Sys :=
  match s.c with
  | .start =>
    if s.bit then { s with bit := false, c := .doneOk }
    else { s with c := .atPublish }
  | .atPublish => { s with slot := true, c := .atRecheck }
  | .atRecheck =>
    if s.bit then
      if s.slot then { s with slot := false, woken := true, c := .doneSync }
      else { s with c := .parked }
    else { s with c := .parked }
  | _ => s

/-- One atomic step of producer `i`.  `pstart`: the `unpark`
compare-and-swap — a no-op when bit 0 is already set, otherwise it sets
bit 0 and proceeds to `wake_up(false)`; `ptake`: `wait_co.take_fast` —
when the slot holds the continuation it is handed to the scheduler. -/
def pstep (i : Nat) (s : Sys) : Sys :=
  match s.ps[i]? with
  | some .pstart =>
    if s.bit then { s with ps := s.ps.set i .pdone }
    else { s with bit := true, ps := s.ps.set i .ptake }
  | some .ptake =>
    if s.slot then { s with slot := false, woken := true, ps := s.ps.set i .pdone }
    else { s with ps := s.ps.set i .pdone }
  | _ => s

/-- A scheduling choice: which agent performs the next atomic step. -/
inductive Agent
  | consumer
  | producer (i : Nat)
deriving DecidableEq, Repr

def step (a : Agent) (s : Sys) : Sys :=
  match a with
  | .consumer => cstep s
  | .producer i => pstep i s

/-- Initial state: ready bit clear, slot empty, the consumer entering
`park_timeout`, `n` producers each about to call `unpark` once. -/
def init (n : Nat) : Sys :=
  { bit := false, slot := false, woken := false, c := .start, ps := List.replicate n .pstart }

/-- Run an interleaving (a list of scheduling choices) from `init n`. -/
def run (n : Nat) (tr : List Agent) : Sys :=
  tr.foldl (fun s a => step a s) (init n)

/-- Every agent has run to completion of its active phase: the consumer
returned from `park_timeout` entry or is suspended, every producer
returned from `unpark`. -/
def Terminal (s : Sys) : Prop :=
  (s.c = .parked ∨ s.c = .doneOk ∨ s.c = .doneSync) ∧ ∀ l ∈ s.ps, l = PLoc.pdone

/-- The consumer observed a wake: its continuation was handed back for
execution, or `park_timeout` returned `Ok` without suspending. -/
def ObservedWake (s : Sys) : Bool :=
  s.woken || s.c == CLoc.doneOk || s.c == CLoc.doneSync

/-- The inductive invariant of the wake protocol:
1. once the continuation has been published, the slot is occupied or the
   wake was already delivered;
2. a producer past its successful compare-and-swap implies bit 0 is set,
   unless the consumer consumed it (and then it returned `Ok`);
3. a completed `unpark` implies bit 0 is still set, or it was consumed
   immediately, or the wake was delivered;
4. if bit 0 is set while the consumer is parked, the wake was delivered or
   some producer still has its `wake_up` take pending;
5. a synchronous re-check wake really delivered the wake. -/
def Inv (s : Sys) : Prop :=
  ((s.c = .atRecheck ∨ s.c = .parked ∨ s.c = .doneSync) → (s.slot = true ∨ s.woken = true)) ∧
  (PLoc.ptake ∈ s.ps → (s.bit = true ∨ s.c = .doneOk)) ∧
  (PLoc.pdone ∈ s.ps → (s.bit = true ∨ s.c = .doneOk ∨ s.woken = true)) ∧
  (s.bit = true → s.c = .parked → (s.woken = true ∨ PLoc.ptake ∈ s.ps)) ∧
  (s.c = .doneSync → s.woken = true)

end Wake

namespace May

theorem subscribe_fst_checkCancel (p : ParkSt) (env : RoundEnv) :
    ((subscribe p env).1).checkCancel = p.checkCancel := by
  simp only [subscribe, set_timeout, set_timeout_handle, guardFire]
  split <;> (try split) <;> (try split) <;> rfl

theorem subscribe_fst_fenceAdds (p : ParkSt) (env : RoundEnv) :
    ((subscribe p env).1).fenceAdds = p.fenceAdds + 1 := by
  simp only [subscribe, set_timeout, set_timeout_handle, guardFire]
  split <;> (try split) <;> (try split) <;> rfl

theorem subscribe_fst_state (p : ParkSt) (env : RoundEnv) :
    ((subscribe p env).1).state = p.state + 2 := by
  simp only [subscribe, set_timeout, set_timeout_handle, guardFire]
  split <;> (try split) <;> (try split) <;> rfl

theorem subscribe_armed_of_timeout_zero (p : ParkSt) (env : RoundEnv) (h : p.timeout = 0) :
    ((subscribe p env).1).armed = p.armed := by
  simp only [subscribe, set_timeout, set_timeout_handle, guardFire, h, if_pos]
  split <;> (try split) <;> rfl

theorem remove_timeout_handle_isCanceled (p : ParkSt) (env : RoundEnv) :
    (remove_timeout_handle p env).isCanceled = p.isCanceled := by
  by_cases h0 : p.timeoutHandle = 0 <;>
    simp [remove_timeout_handle, set_timeout_handle, h0] <;> split <;> rfl

theorem remove_timeout_handle_fenceAdds (p : ParkSt) (env : RoundEnv) :
    (remove_timeout_handle p env).fenceAdds = p.fenceAdds := by
  by_cases h0 : p.timeoutHandle = 0 <;>
    simp [remove_timeout_handle, set_timeout_handle, h0] <;> split <;> rfl

theorem remove_timeout_handle_armed (p : ParkSt) (env : RoundEnv) :
    (remove_timeout_handle p env).armed = p.armed := by
  by_cases h0 : p.timeoutHandle = 0 <;>
    simp [remove_timeout_handle, set_timeout_handle, h0] <;> split <;> rfl

theorem park_timeout_unfold (p : ParkSt) (dur : Option Nat) (env : RoundEnv) :
    park_timeout p dur env =
      (if ((set_timeout p dur).2).state % 2 = 1 then
        (POutcome.okImmediate,
          { (set_timeout p dur).2 with state := ((set_timeout p dur).2).state - 1 })
      else if ((set_timeout p dur).2).waitKernel then
        (if fenceBitSet ((set_timeout p dur).2).state then
          (POutcome.fenceWait, { (set_timeout p dur).2 with waitKernel := false })
        else park_suspend { (set_timeout p dur).2 with waitKernel := false } env)
      else
        park_suspend
          { (set_timeout p dur).2 with
              waitKernel := false, state := clearFence ((set_timeout p dur).2).state } env) := by
  unfold park_timeout
  rcases Nat.mod_two_eq_zero_or_one ((set_timeout p dur).2).state with h | h <;>
    simp [check_park, h]

/-- Master case analysis for `park_suspend`: the round either stays parked
(nothing resumed it), raises the cancellation inside `yield_back`, or
returns the classification of the recorded cancellation flag and the
resumption payload, having advanced the fence twice (once in `subscribe`,
once in `yield_back`). -/
theorem park_suspend_spec (p : ParkSt) (env : RoundEnv) :
    ((park_suspend p env).1 = POutcome.parked ∧
       (park_suspend p env).2 = (subscribe p env).1) ∨
    ((park_suspend p env).1 = POutcome.cancelPanic ∧ p.checkCancel = true ∧
       env.cancelAtYield = true ∧
       ((park_suspend p env).2).fenceAdds = p.fenceAdds + 2) ∨
    ((park_suspend p env).1 = classifyResumption env.cancelAtYield env.coPara ∧
       ((park_suspend p env).2).isCanceled = env.cancelAtYield ∧
       ((park_suspend p env).2).fenceAdds = p.fenceAdds + 2) := by
  have hcc := subscribe_fst_checkCancel p env
  have hfa := subscribe_fst_fenceAdds p env
  unfold park_suspend
  rcases hsub : subscribe p env with ⟨p1, ws, cd⟩
  rw [hsub] at hcc hfa
  dsimp only at hcc hfa ⊢
  by_cases hr : (!(ws || cd || env.externalWake)) = true
  · rw [if_pos hr]
    exact Or.inl ⟨rfl, rfl⟩
  · rw [if_neg hr]
    by_cases hcp : (p1.checkCancel && env.cancelAtYield) = true
    · have hcp2 : ((yield_back p1 env.cancelAtYield).checkCancel && env.cancelAtYield) = true := hcp
      rw [if_pos hcp2]
      refine Or.inr (Or.inl ⟨rfl, ?_, ?_, ?_⟩)
      · rw [← hcc]
        exact (Bool.and_eq_true _ _ ▸ hcp).1
      · exact (Bool.and_eq_true _ _ ▸ hcp).2
      · show p1.fenceAdds + 1 = p.fenceAdds + 2
        omega
    · have hcp2 : ¬ ((yield_back p1 env.cancelAtYield).checkCancel && env.cancelAtYield) = true :=
        hcp
      rw [if_neg hcp2]
      refine Or.inr (Or.inr ⟨?_, ?_, ?_⟩)
      · dsimp only
        rw [remove_timeout_handle_isCanceled]
        rfl
      · dsimp only
        rw [remove_timeout_handle_isCanceled]
        rfl
      · dsimp only
        rw [remove_timeout_handle_fenceAdds]
        show p1.fenceAdds + 1 = p.fenceAdds + 2
        omega

theorem park_suspend_armed (p : ParkSt) (env : RoundEnv) :
    ((park_suspend p env).2).armed = ((subscribe p env).1).armed := by
  unfold park_suspend
  rcases hsub : subscribe p env with ⟨p1, ws, cd⟩
  rw [hsub] at hsub ⊢
  dsimp only
  by_cases hr : (!(ws || cd || env.externalWake)) = true
  · rw [if_pos hr]
  · rw [if_neg hr]
    by_cases hcp : ((yield_back p1 env.cancelAtYield).checkCancel && env.cancelAtYield) = true
    · rw [if_pos hcp]
      rfl
    · rw [if_neg hcp]
      dsimp only
      rw [remove_timeout_handle_armed]
      rfl

/-- Master case analysis for `park_timeout`: either the ready bit was
consumed immediately, or the stale fence made the pre-suspension loop spin,
or the call reduces to `park_suspend` on a state that preserves
`check_cancel`, the ghost counters, and carries the just-installed
timeout. -/
theorem park_timeout_spec (p : ParkSt) (dur : Option Nat) (env : RoundEnv) :
    ((park_timeout p dur env).1 = POutcome.okImmediate ∧
       ((park_timeout p dur env).2).armed = p.armed ∧
       ((park_timeout p dur env).2).fenceAdds = p.fenceAdds) ∨
    ((park_timeout p dur env).1 = POutcome.fenceWait ∧
       ((park_timeout p dur env).2).armed = p.armed ∧
       ((park_timeout p dur env).2).fenceAdds = p.fenceAdds) ∨
    (∃ q : ParkSt, q.checkCancel = p.checkCancel ∧ q.fenceAdds = p.fenceAdds ∧
       q.armed = p.armed ∧
       q.timeout = (match dur with | none => 0 | some d => d / 1000000 % usizeMod) ∧
       park_timeout p dur env = park_suspend q env) := by
  rw [park_timeout_unfold]
  by_cases hs : ((set_timeout p dur).2).state % 2 = 1
  · rw [if_pos hs]
    exact Or.inl ⟨rfl, rfl, rfl⟩
  · rw [if_neg hs]
    by_cases hk : ((set_timeout p dur).2).waitKernel = true
    · rw [if_pos hk]
      by_cases hf : fenceBitSet ((set_timeout p dur).2).state = true
      · rw [if_pos hf]
        exact Or.inr (Or.inl ⟨rfl, rfl, rfl⟩)
      · rw [if_neg hf]
        exact Or.inr (Or.inr ⟨{ (set_timeout p dur).2 with waitKernel := false },
          rfl, rfl, rfl, rfl, rfl⟩)
    · rw [if_neg hk]
      exact Or.inr (Or.inr ⟨{ (set_timeout p dur).2 with
          waitKernel := false, state := clearFence ((set_timeout p dur).2).state },
          rfl, rfl, rfl, rfl, rfl⟩)

theorem park_timeout_none_armed (p : ParkSt) (env : RoundEnv) :
    ((park_timeout p none env).2).armed = p.armed := by
  rcases park_timeout_spec p none env with ⟨_, ha, _⟩ | ⟨_, ha, _⟩ | ⟨q, _, _, hqa, hqt, heq⟩
  · exact ha
  · exact ha
  · rw [heq, park_suspend_armed, subscribe_armed_of_timeout_zero q env hqt]
    exact hqa

end May

namespace May

/-- Claim C2 (bug exhibit): with a non-null previous handle `5` installed,
`set_timeout_handle(None)` returns `Some` of the handle rebuilt from the
NEW (null) pointer — `some 0` — rather than the previous handle `5`, which
is silently dropped from the state without ever being handed back for
uninstallation. -/
theorem claim2_set_timeout_handle_returns_new_ptr :
    (set_timeout_handle pArmed none).1 = some 0 ∧
    (set_timeout_handle pArmed none).1 ≠ some 5 ∧
    ((set_timeout_handle pArmed none).2).timeoutHandle = 0 ∧
    pArmed.timeoutHandle = 5 := by
  decide

/-- Claim C1 (counterexample): even after `ignore_cancel(true)`
(`check_cancel = false`), a round in which the cancellation token is
canceled makes `park_timeout` return `Err(Canceled)`, because `yield_back`
stores `cancel.is_canceled()` into `is_canceled` unconditionally and
`park_timeout` checks that flag unconditionally on resumption. -/
theorem claim1_counterexample :
    (park_timeout pIgnore none envCanceled).1 = POutcome.errCanceled ∧
    ((park_timeout pIgnore none envCanceled).2).isCanceled = true := by
  decide

/-- Claim C1 (amended): with auto-observation disabled
(`check_cancel = false`), a canceled token never makes `park_timeout` raise
the cancellation (`cancel.check_cancel()` is skipped, so no `cancelPanic`),
and the cancellation status is still recorded and queryable in
`is_canceled`; but whenever the call suspends and returns, it still returns
`Err(Canceled)` because the recorded flag is checked first. -/
theorem claim1_cancel_suppression (p : ParkSt) (dur : Option Nat) (env : RoundEnv)
    (hcc : p.checkCancel = false) (hc : env.cancelAtYield = true) :
    (park_timeout p dur env).1 ≠ POutcome.cancelPanic ∧
    ((park_timeout p dur env).1 ≠ POutcome.okImmediate →
      (park_timeout p dur env).1 ≠ POutcome.parked →
      (park_timeout p dur env).1 ≠ POutcome.fenceWait →
      (park_timeout p dur env).1 = POutcome.errCanceled ∧
        ((park_timeout p dur env).2).isCanceled = true) := by
  rcases park_timeout_spec p dur env with ⟨ho, _, _⟩ | ⟨ho, _, _⟩ | ⟨q, hqc, _, _, _, heq⟩
  · constructor
    · rw [ho]; decide
    · intro h1 _ _
      exact absurd ho h1
  · constructor
    · rw [ho]; decide
    · intro _ _ h3
      exact absurd ho h3
  · rcases park_suspend_spec q env with ⟨ho, _⟩ | ⟨_, hqcc, _, _⟩ | ⟨ho, hic, _⟩
    · constructor
      · rw [heq, ho]; decide
      · intro _ h2 _
        rw [heq] at h2
        exact absurd ho h2
    · rw [hqc, hcc] at hqcc
      exact absurd hqcc (by decide)
    · rw [hc] at ho hic
      have hcls : classifyResumption true env.coPara = POutcome.errCanceled := rfl
      constructor
      · rw [heq, ho, hcls]; decide
      · intro _ _ _
        rw [heq]
        exact ⟨ho.trans hcls, hic⟩

/-- Claim C1 (witness for the amended theorem). -/
theorem claim1_cancel_suppression_witness :
    (park_timeout pIgnore none envCanceled).1 ≠ POutcome.cancelPanic ∧
    ((park_timeout pIgnore none envCanceled).1 ≠ POutcome.okImmediate →
      (park_timeout pIgnore none envCanceled).1 ≠ POutcome.parked →
      (park_timeout pIgnore none envCanceled).1 ≠ POutcome.fenceWait →
      (park_timeout pIgnore none envCanceled).1 = POutcome.errCanceled ∧
        ((park_timeout pIgnore none envCanceled).2).isCanceled = true) :=
  claim1_cancel_suppression pIgnore none envCanceled (by decide) (by decide)

/-- Claim C3: pending wakes coalesce to a single boolean flag.  `unpark`
with the ready bit already set leaves the state word unchanged; after two
`unpark`s from the fresh state the word holds exactly one pending wake;
one `park_timeout(None)` consumes it and returns `Ok(())` immediately
(without suspending), and a second `park_timeout(None)` with no further
`unpark` finds the bit clear and actually suspends. -/
theorem claim3_single_flag_coalescing (s : Nat) (hs : s % 2 = 1) :
    unpark_word s = s ∧
    unpark_word 0 = 1 ∧
    unpark_word (unpark_word 0) = unpark_word 0 ∧
    (park_timeout { Park.new with state := unpark_word (unpark_word 0) } none envIdle).1 =
      POutcome.okImmediate ∧
    (park_timeout
      ((park_timeout { Park.new with state := unpark_word (unpark_word 0) } none envIdle).2)
      none envIdle).1 = POutcome.parked := by
  refine ⟨?_, by decide, by decide, by decide, by decide⟩
  simp [unpark_word, hs]

/-- Claim C3 (witness). -/
theorem claim3_single_flag_coalescing_witness :
    unpark_word 1 = 1 ∧
    unpark_word 0 = 1 ∧
    unpark_word (unpark_word 0) = unpark_word 0 ∧
    (park_timeout { Park.new with state := unpark_word (unpark_word 0) } none envIdle).1 =
      POutcome.okImmediate ∧
    (park_timeout
      ((park_timeout { Park.new with state := unpark_word (unpark_word 0) } none envIdle).2)
      none envIdle).1 = POutcome.parked :=
  claim3_single_flag_coalescing 1 (by decide)

/-- Claim C4 (counterexample): over one complete suspension round of a
fresh Park (one `subscribe` followed by one `yield_back` and the return to
the caller), the state word receives TWO `fetch_add(0x02)` increments —
one from the scoped `DropGuard` at the end of `subscribe` and one at the
start of `yield_back` — not exactly one. -/
theorem claim4_counterexample :
    ((park_timeout Park.new none envWake).2).fenceAdds = 2 ∧
    ((park_timeout Park.new none envWake).2).fenceAdds ≠ 1 := by
  decide

/-- Claim C4 (amended): per complete suspension round (a `subscribe`
followed by a `yield_back` and the return to the caller) the state word
receives exactly TWO `+2` increments, one fixed step from the subscribe
guard and one from `yield_back`; each of the two contributors fires exactly
once. -/
theorem claim4_fence_two_steps_per_round (p : ParkSt) (dur : Option Nat) (env : RoundEnv)
    (c : Bool) :
    ((park_timeout p dur env).1 ≠ POutcome.okImmediate →
      (park_timeout p dur env).1 ≠ POutcome.parked →
      (park_timeout p dur env).1 ≠ POutcome.fenceWait →
      ((park_timeout p dur env).2).fenceAdds = p.fenceAdds + 2) ∧
    ((subscribe p env).1).fenceAdds = p.fenceAdds + 1 ∧
    (yield_back p c).fenceAdds = p.fenceAdds + 1 := by
  refine ⟨?_, subscribe_fst_fenceAdds p env, rfl⟩
  intro h1 h2 h3
  rcases park_timeout_spec p dur env with ⟨ho, _, _⟩ | ⟨ho, _, _⟩ | ⟨q, _, hqf, _, _, heq⟩
  · exact absurd ho h1
  · exact absurd ho h3
  · rw [heq] at h2 ⊢
    rcases park_suspend_spec q env with ⟨ho, _⟩ | ⟨_, _, _, hfa⟩ | ⟨_, _, hfa⟩
    · exact absurd ho h2
    · rw [hfa, hqf]
    · rw [hfa, hqf]

/-- Claim C4 (witness for the amended theorem). -/
theorem claim4_fence_two_steps_per_round_witness :
    (((park_timeout Park.new none envWake).1 ≠ POutcome.okImmediate →
      (park_timeout Park.new none envWake).1 ≠ POutcome.parked →
      (park_timeout Park.new none envWake).1 ≠ POutcome.fenceWait →
      ((park_timeout Park.new none envWake).2).fenceAdds = Park.new.fenceAdds + 2) ∧
    ((subscribe Park.new envWake).1).fenceAdds = Park.new.fenceAdds + 1 ∧
    (yield_back Park.new false).fenceAdds = Park.new.fenceAdds + 1) :=
  claim4_fence_two_steps_per_round Park.new none envWake false

/-- Claim C5: `park_timeout` exposes exactly `Ok(())`, `Err(Timeout)` and
`Err(Canceled)` as return values: on resumption the recorded cancellation
flag is checked first and forces `Err(Canceled)` whatever the payload; a
`TimedOut` payload maps to `Err(Timeout)`, an `Other` payload to
`Err(Canceled)`, no payload to `Ok(())`, and any other payload kind is the
unreachable defect; and whenever a call that suspended returns, its result
is exactly this classification of the recorded flag and payload. -/
theorem claim5_return_classification (p : ParkSt) (dur : Option Nat) (env : RoundEnv) :
    (∀ para, classifyResumption true para = POutcome.errCanceled) ∧
    classifyResumption false (some EKind.timedOut) = POutcome.errTimeout ∧
    classifyResumption false (some EKind.other) = POutcome.errCanceled ∧
    classifyResumption false none = POutcome.ok ∧
    classifyResumption false (some EKind.wouldBlock) = POutcome.defect ∧
    ((park_timeout p dur env).1 ≠ POutcome.okImmediate →
      (park_timeout p dur env).1 ≠ POutcome.parked →
      (park_timeout p dur env).1 ≠ POutcome.fenceWait →
      (park_timeout p dur env).1 ≠ POutcome.cancelPanic →
      (park_timeout p dur env).1 =
        classifyResumption ((park_timeout p dur env).2).isCanceled env.coPara) := by
  refine ⟨fun para => rfl, rfl, rfl, rfl, rfl, ?_⟩
  intro h1 h2 h3 h4
  rcases park_timeout_spec p dur env with ⟨ho, _, _⟩ | ⟨ho, _, _⟩ | ⟨q, _, _, _, _, heq⟩
  · exact absurd ho h1
  · exact absurd ho h3
  · rw [heq] at h2 h4 ⊢
    rcases park_suspend_spec q env with ⟨ho, _⟩ | ⟨ho, _, _, _⟩ | ⟨ho, hic, _⟩
    · exact absurd ho h2
    · exact absurd ho h4
    · rw [ho, hic]

/-- Claim C5 (witness). -/
theorem claim5_return_classification_witness :
    (park_timeout Park.new none envWake).1 =
      classifyResumption ((park_timeout Park.new none envWake).2).isCanceled envWake.coPara :=
  (claim5_return_classification Park.new none envWake).2.2.2.2.2
    (by decide) (by decide) (by decide) (by decide)

/-- Claim C7: the scoped guard opened by `subscribe` (via `delay_drop`)
fires exactly once when the call returns, on every exit path (synchronous
re-check wake, cancellation delivery, or normal return), contributing
exactly one `+2` advance of the state word per `subscribe` call. -/
theorem claim7_subscribe_guard_fires_once (p : ParkSt) (env : RoundEnv) :
    ((subscribe p env).1).fenceAdds = p.fenceAdds + 1 ∧
    ((subscribe p env).1).state = p.state + 2 :=
  ⟨subscribe_fst_fenceAdds p env, subscribe_fst_state p env⟩

/-- Claim C10: a strictly positive duration below one millisecond is
truncated to a stored timeout of `0`, which means "wait indefinitely": the
whole `park_timeout` call behaves identically to `park_timeout(None)`, and
in particular no timer is armed. -/
theorem claim10_sub_millisecond_waits_forever (p : ParkSt) (env : RoundEnv) (d : Nat)
    (h0 : 0 < d) (h1 : d < 1000000) :
    ((set_timeout p (some d)).2).timeout = 0 ∧
    park_timeout p (some d) env = park_timeout p none env ∧
    ((park_timeout p (some d) env).2).armed = p.armed := by
  have hd : d / 1000000 = 0 := Nat.div_eq_of_lt h1
  have hst : set_timeout p (some d) = set_timeout p none := by
    simp [set_timeout, hd]
  have heq : park_timeout p (some d) env = park_timeout p none env := by
    unfold park_timeout
    rw [hst]
  refine ⟨?_, heq, ?_⟩
  · simp [set_timeout, hd]
  · rw [heq]
    exact park_timeout_none_armed p env

/-- Claim C10 (witness). -/
theorem claim10_sub_millisecond_waits_forever_witness :
    ((set_timeout Park.new (some 500000)).2).timeout = 0 ∧
    park_timeout Park.new (some 500000) envWake = park_timeout Park.new none envWake ∧
    ((park_timeout Park.new (some 500000) envWake).2).armed = Park.new.armed :=
  claim10_sub_millisecond_waits_forever Park.new envWake 500000 (by decide) (by decide)

end May

namespace May

theorem dropWait_eq (k : Nat) : ∀ (fuel : Nat) (obs : Nat → Nat), k < fuel →
    (∀ i, i < k → fenceBitSet (obs i) = true) → fenceBitSet (obs k) = false →
    dropWait obs fuel = some k := by
  induction k with
  | zero =>
    intro fuel obs hk hset hclr
    match fuel, hk with
    | f + 1, _ =>
      unfold dropWait
      rw [hclr]
      rfl
  | succ k ih =>
    intro fuel obs hk hset hclr
    match fuel, hk with
    | f + 1, hk =>
      unfold dropWait
      rw [hset 0 (Nat.succ_pos k),
        ih f (fun n => obs (n + 1)) (Nat.lt_of_succ_lt_succ hk)
          (fun i hi => hset (i + 1) (Nat.succ_lt_succ hi)) hclr]
      rfl

/-- Claim C6: teardown is fenced.  When `Drop for Park` runs with
`wait_kernel` clear it returns immediately, without waiting and without
touching the timer handle; when `wait_kernel` is set it yields
cooperatively exactly until the fence bit of the state word first reads
clear (here after `k` observations), and only then uninstalls the timer
handle (leaving the null pointer installed) and completes. -/
theorem claim6_teardown_fenced (p : ParkSt) (obs : Nat → Nat) (fuel k : Nat)
    (hk : k < fuel)
    (hset : ∀ i, i < k → fenceBitSet (obs i) = true)
    (hclr : fenceBitSet (obs k) = false) :
    (p.waitKernel = false → park_drop p obs fuel = some ⟨0, false, p⟩) ∧
    (p.waitKernel = true →
      park_drop p obs fuel = some ⟨k, true, (set_timeout_handle p none).2⟩ ∧
      ((set_timeout_handle p none).2).timeoutHandle = 0) := by
  constructor
  · intro h
    simp [park_drop, h]
  · intro h
    refine ⟨?_, rfl⟩
    simp [park_drop, h, dropWait_eq k fuel obs hk hset hclr]

/-- Claim C6 (witness): a destructor run with no open round returns
immediately; one with an open round and a fence that closes after two
observations yields twice and then uninstalls the handle. -/
theorem claim6_teardown_fenced_witness :
    park_drop Park.new (fun i => if i < 2 then 2 else 0) 4 = some ⟨0, false, Park.new⟩ ∧
    park_drop { Park.new with waitKernel := true } (fun i => if i < 2 then 2 else 0) 4 =
      some ⟨2, true, (set_timeout_handle { Park.new with waitKernel := true } none).2⟩ :=
  ⟨(claim6_teardown_fenced Park.new (fun i => if i < 2 then 2 else 0) 4 2
      (by decide) (by decide) (by decide)).1 rfl,
   ((claim6_teardown_fenced { Park.new with waitKernel := true }
      (fun i => if i < 2 then 2 else 0) 4 2
      (by decide) (by decide) (by decide)).2 rfl).1⟩

end May

namespace Fs

/-- Claim C9: `FileIo::new(None)` always returns `Ok` carrying the sentinel
descriptor `-1` and performs no kernel descriptor allocation, and the
destructor closes a descriptor only when it is non-negative, so the
sentinel is never closed; `FileIo::new(Some(file))` returns the last OS
error when `eventfd` fails (negative return) and propagates a reactor
registration error unchanged, and on success carries the allocated
descriptor and registration token. -/
theorem claim9_fileio_construction_teardown (env : FsEnv) :
    FileIo.new false env = (.ok { fd := -1, io := env.dummyIoData }, false) ∧
    dropCloses { fd := -1, io := env.dummyIoData } = false ∧
    (∀ f : FileIo, f.fd < 0 → dropCloses f = false) ∧
    (env.eventfdRet < 0 → FileIo.new true env = (.error env.lastOsError, true)) ∧
    (0 ≤ env.eventfdRet → ∀ e, env.addFileRet = .error e →
      FileIo.new true env = (.error e, true)) ∧
    (0 ≤ env.eventfdRet → ∀ io, env.addFileRet = .ok io →
      FileIo.new true env = (.ok { fd := env.eventfdRet, io := io }, true)) := by
  refine ⟨rfl, rfl, ?_, ?_, ?_, ?_⟩
  · intro f hf
    simp [dropCloses]
    omega
  · intro h
    simp [FileIo.new, h]
  · intro h e he
    have hneg : ¬ env.eventfdRet < 0 := not_lt.mpr h
    simp [FileIo.new, hneg, he]
  · intro h io hio
    have hneg : ¬ env.eventfdRet < 0 := not_lt.mpr h
    simp [FileIo.new, hneg, hio]

/-- Claim C9 (witness): the sentinel path, an eventfd failure with errno
`13`, and a registration failure with error `9`, all at concrete
environments. -/
theorem claim9_fileio_construction_teardown_witness :
    FileIo.new false ⟨-1, 13, .error 9, 0⟩ = (.ok { fd := -1, io := 0 }, false) ∧
    FileIo.new true ⟨-1, 13, .error 9, 0⟩ = (.error 13, true) ∧
    FileIo.new true ⟨4, 13, .error 9, 0⟩ = (.error 9, true) ∧
    FileIo.new true ⟨4, 13, .ok 21, 0⟩ = (.ok { fd := 4, io := 21 }, true) :=
  ⟨(claim9_fileio_construction_teardown ⟨-1, 13, .error 9, 0⟩).1,
   (claim9_fileio_construction_teardown ⟨-1, 13, .error 9, 0⟩).2.2.2.1 (by decide),
   (claim9_fileio_construction_teardown ⟨4, 13, .error 9, 0⟩).2.2.2.2.1 (by decide) 9 rfl,
   (claim9_fileio_construction_teardown ⟨4, 13, .ok 21, 0⟩).2.2.2.2.2 (by decide) 21 rfl⟩

end Fs

namespace Wake

theorem mem_set_self {α : Type} (l : List α) (i : Nat) (a : α) (h : i < l.length) :
    a ∈ l.set i a :=
  List.getElem?_mem (List.getElem?_set_self h)

theorem mem_set_of_ne {α : Type} {l : List α} {i : Nat} {a b : α} (c : α)
    (ha : a ∈ l) (hb : l[i]? = some b) (hab : a ≠ b) : a ∈ l.set i c := by
  rcases List.mem_iff_getElem?.1 ha with ⟨j, hj⟩
  have hij : i ≠ j := by
    intro h
    rw [h, hj] at hb
    exact hab (Option.some.inj hb)
  exact List.getElem?_mem (by rw [List.getElem?_set_ne hij, hj])

theorem inv_init (n : Nat) : Inv (init n) := by
  simp [Inv, init]

theorem inv_cstep : ∀ {s : Sys}, Inv s → Inv (cstep s) := by
  rintro ⟨bit, slot, woken, c, ps⟩ ⟨h1, h2, h3, h4, h5⟩
  cases c <;> cases bit <;> cases slot <;> cases woken <;>
    simp_all [Inv, cstep]

end Wake

namespace Wake

theorem inv_pstep : ∀ {s : Sys} (i : Nat), Inv s → Inv (pstep i s) := by
  rintro ⟨bit, slot, woken, c, ps⟩ i ⟨h1, h2, h3, h4, h5⟩
  unfold pstep
  dsimp only
  rcases hi : ps[i]? with _ | l
  · exact ⟨h1, h2, h3, h4, h5⟩
  cases l
  case pstart =>
    have hlen : i < ps.length := by
      by_contra hh
      rw [List.getElem?_eq_none (Nat.le_of_not_lt hh)] at hi
      cases hi
    cases bit
    · -- CAS succeeds: set bit, go take
      dsimp only
      refine ⟨h1, fun _ => Or.inl rfl, fun _ => Or.inl rfl, ?_, h5⟩
      intro _ hc
      exact Or.inr (mem_set_self ps i PLoc.ptake hlen)
    · -- bit already set: no-op unpark
      dsimp only
      refine ⟨h1, fun _ => Or.inl rfl, fun _ => Or.inl rfl, ?_, h5⟩
      intro hb hc
      rcases h4 hb hc with hw | htake
      · exact Or.inl hw
      · exact Or.inr (mem_set_of_ne PLoc.pdone htake hi (by decide))
  case ptake =>
    cases slot
    · -- slot already empty: the take is a no-op
      dsimp only
      have hptake : PLoc.ptake ∈ ps := List.getElem?_mem hi
      refine ⟨h1, ?_, ?_, ?_, h5⟩
      · intro hm
        rcases List.mem_or_eq_of_mem_set hm with hm | he
        · exact h2 hm
        · exact absurd he (by decide)
      · intro _
        rcases h2 hptake with hb | hd
        · exact Or.inl hb
        · exact Or.inr (Or.inl hd)
      · intro hb hc
        rcases h1 (Or.inr (Or.inl hc)) with hs | hw
        · exact absurd hs Bool.false_ne_true
        · exact Or.inl hw
    · -- slot full: take it and deliver the wake
      dsimp only
      refine ⟨fun _ => Or.inr rfl, ?_, fun _ => Or.inr (Or.inr rfl), fun _ _ => Or.inl rfl,
        fun _ => rfl⟩
      intro hm
      rcases List.mem_or_eq_of_mem_set hm with hm | he
      · exact h2 hm
      · exact absurd he (by decide)
  case pdone =>
    exact ⟨h1, h2, h3, h4, h5⟩

theorem inv_run (n : Nat) (tr : List Agent) : Inv (run n tr) := by
  suffices h : ∀ s, Inv s → Inv (tr.foldl (fun s a => step a s) s) from h (init n) (inv_init n)
  induction tr with
  | nil => exact fun s hs => hs
  | cons a tr ih =>
    intro s hs
    refine ih _ ?_
    cases a
    · exact inv_cstep hs
    · exact inv_pstep _ hs

end Wake

namespace Wake

/-- Claim C8: no lost wakeup.  For every number of producers and every
interleaving of the consumer's `park_timeout` entry (`check_park`,
publication, `subscribe` re-check) with the producers' `unpark` calls, if
the system quiesces with at least one completed `unpark`, the consumer has
observed a wake: either `check_park` consumed a pending wake and returned
`Ok` at once, or the continuation was handed back for execution — in
particular a producer that set the ready bit between the consumer's check
and its publication is caught by the `subscribe` re-check.  The consumer
is never left parked with a delivered `unpark` and no wake. -/
theorem claim8_no_lost_wakeup (n : Nat) (tr : List Agent)
    (hterm : Terminal (run n tr)) (hdone : PLoc.pdone ∈ (run n tr).ps) :
    ObservedWake (run n tr) = true := by
  obtain ⟨h1, h2, h3, h4, h5⟩ := inv_run n tr
  obtain ⟨hc, hall⟩ := hterm
  rcases hc with hc | hc | hc
  · rcases h3 hdone with hb | hdoneOk | hw
    · rcases h4 hb hc with hw | htake
      · simp [ObservedWake, hw]
      · have := hall _ htake
        exact absurd this (by decide)
    · rw [hc] at hdoneOk
      exact absurd hdoneOk (by decide)
    · simp [ObservedWake, hw]
  · simp [ObservedWake, hc]
  · simp [ObservedWake, h5 hc]

/-- Claim C8 (witness): the race the re-check exists for.  The consumer
finds the bit clear; a producer then sets the bit and finds the slot still
empty (its wake is a no-op); the consumer publishes, re-checks, sees the
bit, and wakes itself synchronously. -/
theorem claim8_no_lost_wakeup_witness :
    ObservedWake (run 1 [Agent.consumer, Agent.producer 0, Agent.producer 0,
      Agent.consumer, Agent.consumer]) = true ∧
    (run 1 [Agent.consumer, Agent.producer 0, Agent.producer 0,
      Agent.consumer, Agent.consumer]).c = CLoc.doneSync :=
  ⟨claim8_no_lost_wakeup 1
      [Agent.consumer, Agent.producer 0, Agent.producer 0, Agent.consumer, Agent.consumer]
      ⟨by decide, by decide⟩ (by decide),
   by decide⟩

end Wake
